import Mathlib

/-!
Shallow embedding of the complaint deduplication and lifecycle engine
(`src/aiService.js` and `src/firebaseService.js`), together with theorems
settling the behavioural claims about it.

Scores are modelled as rationals (`ℚ`).  On the modelled paths the source
compares and combines decimal literals whose rational readings order against
the rule thresholds the same way as their IEEE doubles, with one exception
that is modelled explicitly: the location analyzer's address boost is a
double addition whose result can land on the other side of a threshold than
the exact sum — `0.7 + 0.2` rounds to `0.8999999999999999`, strictly below
the `0.9` rule threshold — so `boostedScore` embeds the exact binary64 sums
for the reachable base scores.  The reputation update
(`updateCitizenEthicalScore`) uses `Math.sqrt`, so that component is modelled
over `ℝ`.  Calls to the external classifier (OpenAI) and clock/geometry
inputs (haversine distance, hours since creation) are modelled as explicit
inputs: `Option` wraps a classifier response, with `none` standing for a
thrown/failed call that the source catches.
-/

namespace Demo

/-! ## Analyzer results (src/aiService.js) -/

/-- Result of `analyzeSemanticSimilarity` (aiService.js lines 307–355). -/
structure SemanticResult where
  score : ℚ
  reasoning : String
  problemMatch : Bool
  severityMatch : Bool
  infrastructureMatch : Bool
  deriving Repr, DecidableEq

/-- Result of `analyzeLocationProximity` (aiService.js lines 360–429). -/
structure LocationResult where
  score : ℚ
  distance : Option ℚ
  reasoning : String
  withinProximity : Bool
  deriving Repr, DecidableEq

/-- Result of `analyzeImageSimilarity` (aiService.js lines 434–497). -/
structure ImageResult where
  score : ℚ
  reasoning : String
  visualMatch : Bool
  deriving Repr, DecidableEq

/-- Result of `analyzeTemporalRelevance` (aiService.js lines 502–532). -/
structure TemporalResult where
  score : ℚ
  reasoning : String
  hoursDiff : Option ℚ
  deriving Repr, DecidableEq

/-- Result of `analyzeComplaintType` (aiService.js lines 537–579). -/
structure TypeResult where
  score : ℚ
  sameType : Bool
  newType : String
  existingType : String
  deriving Repr, DecidableEq

/-- Parsed JSON returned by the classifier for the text comparison.  Fields
are optional because the source reads them with `analysis.score || 0`
style defaults. -/
structure SemanticResponse where
  score : Option ℚ
  reasoning : Option String
  problem_match : Option Bool
  severity_match : Option Bool
  infrastructure_match : Option Bool
  deriving Repr, DecidableEq

/-- Parsed JSON returned by the classifier for the image comparison. -/
structure ImageResponse where
  score : Option ℚ
  reasoning : Option String
  same_location : Option Bool
  same_problem : Option Bool
  visual_match : Option Bool
  deriving Repr, DecidableEq

/-- Parsed JSON returned by the classifier for the type comparison. -/
structure TypeResponse where
  score : Option ℚ
  same_type : Option Bool
  new_type : Option String
  existing_type : Option String
  deriving Repr, DecidableEq

/-- `analyzeSemanticSimilarity` (aiService.js lines 307–355).  The classifier
call is an explicit input; `none` is a failed call, handled by the
`catch` branch of the source. -/
def analyzeSemanticSimilarity : Option SemanticResponse → SemanticResult
  | some analysis =>
      { score := analysis.score.getD 0
        reasoning := analysis.reasoning.getD "No reasoning provided"
        problemMatch := analysis.problem_match.getD false
        severityMatch := analysis.severity_match.getD false
        infrastructureMatch := analysis.infrastructure_match.getD false }
  | none =>
      { score := 0, reasoning := "Analysis failed"
        problemMatch := false, severityMatch := false
        infrastructureMatch := false }

/-- Input to `analyzeLocationProximity`: either one side lacks coordinates,
or an exception is raised inside the `try` block, or the computation
succeeds with the haversine `distance` (km) and the address token-overlap
`addressSimilarity` as numeric inputs. -/
inductive LocationInput where
  | missing
  | failure
  | ok (distance : ℚ) (addressSimilarity : ℚ)
  deriving Repr, DecidableEq

/-- The IEEE-binary64 result of the address boost addition `score + 0.2`
(aiService.js line 413) on the reachable base scores of
`analyzeLocationProximity`.  The source performs this addition in
JavaScript doubles: `0.7 + 0.2` rounds to `0.8999999999999999…`, strictly
below the `0.9` rule threshold, and `0.4 + 0.2` rounds to
`0.6000000000000001…`, strictly above `0.6`.  Each branch is the exact
dyadic rational of the binary64 sum. -/
def boostedScore (score : ℚ) : ℚ :=
  if score = 95/100 then 2589569785738035/2251799813685248
  else if score = 85/100 then 4728779608739021/4503599627370496
  else if score = 7/10 then 2026619832316723/2251799813685248
  else if score = 4/10 then 1351079888211149/2251799813685248
  else if score = 2/10 then 3602879701896397/9007199254740992
  else 3602879701896397/18014398509481984

/-- `analyzeLocationProximity` (aiService.js lines 360–429): piecewise score
over the distance, +0.2 boost (performed in binary64, capped at 1.0) for
address similarity above 0.8, `withinProximity` true at ≤ 0.2 km. -/
def analyzeLocationProximity : LocationInput → LocationResult
  | .missing =>
      { score := 0, distance := none
        reasoning := "One or both locations missing", withinProximity := false }
  | .failure =>
      { score := 0, distance := none
        reasoning := "Location analysis failed", withinProximity := false }
  | .ok distance addressSimilarity =>
      let base : ℚ × String × Bool :=
        if distance ≤ (5/100 : ℚ) then ((95/100 : ℚ), "Very close proximity", true)
        else if distance ≤ (1/10 : ℚ) then ((85/100 : ℚ), "Close proximity", true)
        else if distance ≤ (2/10 : ℚ) then ((7/10 : ℚ), "Nearby", true)
        else if distance ≤ (5/10 : ℚ) then ((4/10 : ℚ), "Same area", false)
        else if distance ≤ (1 : ℚ) then ((2/10 : ℚ), "Same locality", false)
        else (0, "Different areas", false)
      let score := if addressSimilarity > (8/10 : ℚ) then min (1 : ℚ) (boostedScore base.1) else base.1
      let reasoning :=
        if addressSimilarity > (8/10 : ℚ) then base.2.1 ++ " + similar addresses" else base.2.1
      { score := score, distance := some distance
        reasoning := reasoning, withinProximity := base.2.2 }

/-- `analyzeImageSimilarity` (aiService.js lines 434–497).  The image URLs of
both sides and the classifier call are inputs; the call outcome is only
consulted when both URLs are present, matching the early return. -/
def analyzeImageSimilarity (newImageUrl existingImageUrl : Option String)
    (call : Option ImageResponse) : ImageResult :=
  if newImageUrl.isNone ∨ existingImageUrl.isNone then
    { score := 0, reasoning := "One or both images missing", visualMatch := false }
  else
    match call with
    | some analysis =>
        { score := analysis.score.getD 0
          reasoning := analysis.reasoning.getD "No reasoning provided"
          visualMatch := analysis.visual_match.getD false }
    | none =>
        { score := 0, reasoning := "Image analysis failed", visualMatch := false }

/-- Input to `analyzeTemporalRelevance`: the hours elapsed since the
candidate's creation when the date parses, `invalidDate` when the date
value yields `NaN` (every branch comparison is then false), `failure` when
the `try` block throws. -/
inductive TemporalInput where
  | ok (hoursDiff : ℚ)
  | invalidDate
  | failure
  deriving Repr, DecidableEq

/-- `analyzeTemporalRelevance` (aiService.js lines 502–532). -/
def analyzeTemporalRelevance : TemporalInput → TemporalResult
  | .ok hoursDiff =>
      if hoursDiff ≤ 24 then { score := (1 : ℚ), reasoning := "Same day complaint", hoursDiff := some hoursDiff }
      else if hoursDiff ≤ 72 then { score := (8/10 : ℚ), reasoning := "Within 3 days", hoursDiff := some hoursDiff }
      else if hoursDiff ≤ 168 then { score := (6/10 : ℚ), reasoning := "Within 1 week", hoursDiff := some hoursDiff }
      else if hoursDiff ≤ 720 then { score := (3/10 : ℚ), reasoning := "Within 1 month", hoursDiff := some hoursDiff }
      else { score := (1/10 : ℚ), reasoning := "Old complaint", hoursDiff := some hoursDiff }
  | .invalidDate =>
      -- NaN hoursDiff: every `<=` test is false, so the final branch runs.
      { score := (1/10 : ℚ), reasoning := "Old complaint", hoursDiff := none }
  | .failure =>
      { score := (5/10 : ℚ), reasoning := "Date analysis failed", hoursDiff := none }

/-- `analyzeComplaintType` (aiService.js lines 537–579). -/
def analyzeComplaintType : Option TypeResponse → TypeResult
  | some analysis =>
      { score := analysis.score.getD 0
        sameType := analysis.same_type.getD false
        newType := analysis.new_type.getD "unknown"
        existingType := analysis.existing_type.getD "unknown" }
  | none =>
      { score := 0, sameType := false, newType := "unknown", existingType := "unknown" }

/-! ## Weighted scoring, duplicate decision, confidence -/

/-- The five weights of `checkComplaintSimilarity` (aiService.js lines 232–238). -/
structure Weights where
  semantic : ℚ
  location : ℚ
  image : ℚ
  temporal : ℚ
  type' : ℚ
  deriving Repr, DecidableEq

/-- `weights` object literal of `checkComplaintSimilarity`. -/
def weights : Weights :=
  { semantic := (35/100 : ℚ), location := (30/100 : ℚ), image := (20/100 : ℚ), temporal := (10/100 : ℚ), type' := (5/100 : ℚ) }

/-- `decideDuplicateStatus` (aiService.js lines 641–659). -/
def decideDuplicateStatus (finalScore : ℚ) (semantic : SemanticResult)
    (location : LocationResult) (image : ImageResult) : Bool :=
  if finalScore ≥ (85/100 : ℚ) then true
  else if finalScore ≥ (75/100 : ℚ) ∧ location.withinProximity then true
  else if semantic.score ≥ (85/100 : ℚ) ∧ location.score ≥ (7/10 : ℚ) then true
  else if location.score ≥ (9/10 : ℚ) ∧ semantic.score ≥ (6/10 : ℚ) then true
  else if image.score ≥ (8/10 : ℚ) ∧ location.score ≥ (6/10 : ℚ) then true
  else decide (finalScore ≥ (8/10 : ℚ))

/-- `calculateConfidence` (aiService.js lines 664–679). -/
def calculateConfidence (finalScore : ℚ) (semantic : SemanticResult)
    (location : LocationResult) (image : ImageResult) : ℚ :=
  let strongIndicators :=
    (List.filter id
      [decide (semantic.score ≥ (8/10 : ℚ)), location.withinProximity,
        decide (image.score ≥ (7/10 : ℚ))]).length
  if strongIndicators ≥ 2 then min (1 : ℚ) (finalScore + (1/10 : ℚ)) else finalScore

/-- Combined result of `checkComplaintSimilarity` (aiService.js lines 205–300). -/
structure SimilarityResult where
  score : ℚ
  isDuplicate : Bool
  confidence : ℚ
  deriving Repr, DecidableEq

/-- The `finalScore` weighted sum of `checkComplaintSimilarity`
(aiService.js lines 240–245). -/
def aggregateScore (semanticAnalysis : SemanticResult)
    (locationAnalysis : LocationResult) (imageAnalysis : ImageResult)
    (temporalAnalysis : TemporalResult) (typeAnalysis : TypeResult) : ℚ :=
  semanticAnalysis.score * weights.semantic +
  locationAnalysis.score * weights.location +
  imageAnalysis.score * weights.image +
  temporalAnalysis.score * weights.temporal +
  typeAnalysis.score * weights.type'

/-- Pure core of `checkComplaintSimilarity` (aiService.js lines 205–300)
given the five analyzer results: the weighted aggregate, the duplicate
decision and the confidence. -/
def checkComplaintSimilarity (semanticAnalysis : SemanticResult)
    (locationAnalysis : LocationResult) (imageAnalysis : ImageResult)
    (temporalAnalysis : TemporalResult) (typeAnalysis : TypeResult) :
    SimilarityResult :=
  let finalScore :=
    aggregateScore semanticAnalysis locationAnalysis imageAnalysis
      temporalAnalysis typeAnalysis
  { score := finalScore
    isDuplicate := decideDuplicateStatus finalScore semanticAnalysis locationAnalysis imageAnalysis
    confidence := calculateConfidence finalScore semanticAnalysis locationAnalysis imageAnalysis }

/-! ## Duplicate check scan (firebaseService.js lines 635–796) -/

/-- Outcome of `checkDuplicateComplaint`: either a duplicate verdict carrying
the best match's similarity result, or a clean result carrying the highest
score observed across the pool. -/
inductive DuplicateCheckResult where
  | duplicate (best : SimilarityResult)
  | noDuplicate (highestScore : ℚ)
  deriving Repr, DecidableEq

/-- Loop body of the `bestMatch` / `highestScore` scan of
`checkDuplicateComplaint` (firebaseService.js lines 721–728): a candidate
replaces the best match only when its similarity score is strictly
greater than the running highest score. -/
def scanStep (acc : Option SimilarityResult × ℚ) (similarity : SimilarityResult) :
    Option SimilarityResult × ℚ :=
  if similarity.score > acc.2 then (some similarity, similarity.score) else acc

/-- The `bestMatch` / `highestScore` loop of `checkDuplicateComplaint`
(firebaseService.js lines 668–736), starting from `bestMatch = null`,
`highestScore = 0`. -/
def scanCandidates (pool : List SimilarityResult) : Option SimilarityResult × ℚ :=
  pool.foldl scanStep (none, 0)

/-- `checkDuplicateComplaint` (firebaseService.js lines 635–796), over the
similarity results of the scanned candidate pool (candidates by the same
reporter and candidates skipped by the department short-circuit are not in
the pool).  A duplicate result is returned exactly when the tracked best
match exists and its own verdict is duplicate. -/
def checkDuplicateComplaint (pool : List SimilarityResult) : DuplicateCheckResult :=
  match scanCandidates pool with
  | (some bestMatch, highestScore) =>
      if bestMatch.isDuplicate then .duplicate bestMatch
      else .noDuplicate highestScore
  | (none, highestScore) => .noDuplicate highestScore

/-- Running maximum of the candidates' similarity scores starting from `m`. -/
def maxFrom (m : ℚ) (pool : List SimilarityResult) : ℚ :=
  pool.foldl (fun a c => max a c.score) m

/-- Highest similarity score across the pool, floored at the scan's initial
value 0.  Stated from the spec's words ("the highest score observed"), to
be compared with the scan the source performs. -/
def maxScore (pool : List SimilarityResult) : ℚ :=
  maxFrom 0 pool

/-- The candidate the spec's words designate: the first candidate attaining
the pool's maximum score, provided that maximum is positive (a candidate
whose score is 0 never overtakes the scan's initial value). -/
def bestCandidate (pool : List SimilarityResult) : Option SimilarityResult :=
  if 0 < maxScore pool then pool.find? (fun c => c.score == maxScore pool) else none

/-! ## Complaint lifecycle (firebaseService.js) -/

/-- Location payload stored on confirmation
(firebaseService.js lines 987–995). -/
structure GeoLocation where
  latitude : ℚ
  longitude : ℚ
  address : String
  deriving Repr, DecidableEq

/-- The `workflow` map of a complaint document. -/
structure ComplaintWorkflow where
  step : String
  nextAction : String
  completionPercentage : ℤ
  deriving Repr, DecidableEq

/-- Complaint document as written by `createDraftComplaint`
(firebaseService.js lines 872–944) and updated in place by
`confirmComplaint` / `cancelComplaint`.  The created document carries no
`followUpUsers` field; an absent array field is modelled as `[]`
(Firestore `arrayUnion` on an absent field creates a one-element array). -/
structure Complaint where
  id : String
  description : String
  department : String
  priority : String
  category : String
  createdBy : String
  status : String
  estimatedResolutionTime : ℤ
  location : Option GeoLocation
  imageUrl : Option String
  requiresLocationSharing : Bool
  ticketId : Option String
  workflow : ComplaintWorkflow
  followUpUsers : List String
  deriving Repr, DecidableEq

/-- The `workflow` map of a ticket document. -/
structure TicketWorkflow where
  currentStep : String
  nextStep : String
  completionPercentage : ℤ
  deriving Repr, DecidableEq

/-- Ticket document as written by `createTicketRecord`
(firebaseService.js lines 1259–1346). -/
structure Ticket where
  ticketId : String
  complaintId : String
  createdBy : String
  department : String
  status : String
  priority : String
  category : String
  description : String
  location : GeoLocation
  assignedTo : Option String
  followUpUsers : List String
  workflow : TicketWorkflow
  deriving Repr, DecidableEq

/-- The abstract repository: the `complaints` and `tickets` collections. -/
structure Store where
  complaints : List Complaint
  tickets : List Ticket
  deriving Repr, DecidableEq

/-- `calculateEstimatedResolutionTime` (firebaseService.js lines 1416–1441):
base hours per department times a priority multiplier, rounded up. -/
def calculateEstimatedResolutionTime (department priority : String) : ℤ :=
  let baseTime : ℚ :=
    if department = "Water Supply" then 24
    else if department = "Waste Management" then 48
    else if department = "Roads & Infrastructure" then 72
    else if department = "Health & Sanitation" then 24
    else if department = "Building & Planning" then 168
    else if department = "Electricity" then 12
    else if department = "Parks & Recreation" then 48
    else if department = "Traffic & Transport" then 24
    else if department = "Property Tax" then 72
    else if department = "General Administration" then 48
    else 48
  let multiplier : ℚ :=
    if priority = "emergency" then (25/100 : ℚ)
    else if priority = "high" then (5/10 : ℚ)
    else if priority = "medium" then (1 : ℚ)
    else if priority = "low" then (15/10 : ℚ)
    else (1 : ℚ)
  ⌈baseTime * multiplier⌉

/-- `createDraftComplaint` (firebaseService.js lines 822–964).  The generated
complaint id and the three classifier categorizations (each `none` when
the corresponding call was not fulfilled, making the source keep its
default) are explicit inputs.  Returns the extended store and the created
document. -/
def createDraftComplaint (s : Store) (complaintId : String)
    (description phoneNumber : String)
    (deptResult priorityResult categoryResult : Option String)
    (imageUrl : Option String) : Store × Complaint :=
  let department := deptResult.getD "General Administration"
  let priority := priorityResult.getD "medium"
  let category := categoryResult.getD "General Services"
  let estimatedResolutionTime := calculateEstimatedResolutionTime department priority
  let draftComplaint : Complaint :=
    { id := complaintId
      description := description
      department := department
      priority := priority
      category := category
      createdBy := phoneNumber
      status := "draft"
      estimatedResolutionTime := estimatedResolutionTime
      location := none
      imageUrl := imageUrl
      requiresLocationSharing := true
      ticketId := none
      workflow :=
        { step := "location_required"
          nextAction := "await_location"
          completionPercentage := 30 }
      followUpUsers := [] }
  ({ s with complaints := s.complaints ++ [draftComplaint] }, draftComplaint)

/-- `createTicketRecord` (firebaseService.js lines 1259–1346): the ticket
document built from the (already confirmed) complaint data. -/
def createTicketRecord (ticketId complaintId : String) (complaintData : Complaint)
    (locationData : GeoLocation) : Ticket :=
  { ticketId := ticketId
    complaintId := complaintId
    createdBy := complaintData.createdBy
    department := complaintData.department
    status := "open"
    priority := complaintData.priority
    category := complaintData.category
    description := complaintData.description
    location := locationData
    assignedTo := none
    followUpUsers := [complaintData.createdBy]
    workflow :=
      { currentStep := "ticket_created"
        nextStep := "department_assignment"
        completionPercentage := 70 } }

/-- `confirmComplaint` (firebaseService.js lines 969–1033).  The freshly
generated ticket id is an explicit input.  The source reads the document,
errors only when it does not exist, then unconditionally updates it to
`active` and creates the ticket record from the merged data; there is no
status check. -/
def confirmComplaint (s : Store) (complaintId ticketId : String)
    (loc : GeoLocation) : Except String (Store × String) :=
  match s.complaints.find? (fun c => c.id == complaintId) with
  | none => .error ("Complaint " ++ complaintId ++ " not found")
  | some complaintData =>
      let confirmed : Complaint :=
        { complaintData with
            status := "active"
            ticketId := some ticketId
            location := some loc
            requiresLocationSharing := false
            workflow :=
              { step := "confirmed"
                nextAction := "assign_department"
                completionPercentage := 60 } }
      let ticket := createTicketRecord ticketId complaintId confirmed loc
      let updatedComplaints :=
        s.complaints.map (fun c => if c.id == complaintId then
          { c with
              status := "active"
              ticketId := some ticketId
              location := some loc
              requiresLocationSharing := false
              workflow :=
                { step := "confirmed"
                  nextAction := "assign_department"
                  completionPercentage := 60 } }
          else c)
      .ok ({ complaints := updatedComplaints, tickets := s.tickets ++ [ticket] }, ticketId)

/-- `cancelComplaint` (firebaseService.js lines 1038–1064): an unconditional
update to `cancelled` with workflow percentage 0; it fails only when the
document does not exist (Firestore `update` on a missing document), with
no status check. -/
def cancelComplaint (s : Store) (complaintId : String) : Except String Store :=
  if (s.complaints.find? (fun c => c.id == complaintId)).isSome then
    .ok
      { s with
          complaints :=
            s.complaints.map (fun c => if c.id == complaintId then
              { c with
                  status := "cancelled"
                  workflow :=
                    { step := "cancelled"
                      nextAction := "none"
                      completionPercentage := 0 } }
              else c) }
  else .error ("Complaint " ++ complaintId ++ " not found")

/-- Firestore `FieldValue.arrayUnion` on a single element: append unless
already present. -/
def arrayUnion (l : List String) (x : String) : List String :=
  if x ∈ l then l else l ++ [x]

/-- Update the first list element satisfying `p` (Firestore query with
`limit(1)` followed by an update of the returned document). -/
def updateFirst (p : α → Bool) (f : α → α) : List α → List α
  | [] => []
  | x :: xs => if p x then f x :: xs else x :: updateFirst p f xs

/-- `addUserToComplaintFollowUp` (firebaseService.js lines 1351–1388):
`arrayUnion` the phone number into the complaint's `followUpUsers`, then
into the first ticket whose `complaintId` matches, when one exists.  All
errors are caught and swallowed, so a missing complaint leaves the store
unchanged. -/
def addUserToComplaintFollowUp (s : Store) (complaintId phoneNumber : String) : Store :=
  if (s.complaints.find? (fun c => c.id == complaintId)).isSome then
    { complaints :=
        s.complaints.map (fun c => if c.id == complaintId then
          { c with followUpUsers := arrayUnion c.followUpUsers phoneNumber }
          else c)
      tickets :=
        updateFirst (fun t => t.complaintId == complaintId)
          (fun t => { t with followUpUsers := arrayUnion t.followUpUsers phoneNumber })
          s.tickets }
  else s

/-! ## Reputation update (firebaseService.js lines 542–585) -/

/-- `updateCitizenEthicalScore` (firebaseService.js lines 542–585): the new
stored score computed from the current score, the per-message score and
the message count.  `Math.round(x * 10) / 10` is rounding half away from
zero for positive arguments, which Mathlib's `round` (half up) matches. -/
noncomputable def updateCitizenEthicalScore
    (currentScore messageEthicalScore : ℝ) (totalMessages : ℕ) : ℝ :=
  let weight : ℝ := min (totalMessages : ℝ) 100
  let decay : ℝ := max 0.1 (1 / Real.sqrt ((totalMessages : ℝ) + 1))
  let newScore :=
    (currentScore * weight * (1 - decay) + messageEthicalScore * 3) /
      (weight * (1 - decay) + 3)
  let roundedScore := (round (newScore * 10) : ℝ) / 10
  max 1 (min 10 roundedScore)

/-! ## Per-message ethical score (aiService.js lines 738–788) -/

/-- `calculateEthicalScore` (aiService.js lines 738–788) over the classifier
call outcome: `none` is a failed call (the `catch` branch); otherwise the
response text is stripped to its digits and parsed, `NaN` falling back to
the neutral 7 and a parsed value clamped to `[1, 10]`. -/
def calculateEthicalScore : Option String → ℕ
  | none => 7
  | some response =>
      match (String.mk (response.data.filter Char.isDigit)).toNat? with
      | none => 7
      | some score => max 1 (min 10 score)

/-! ## Concrete fixtures

A small concrete run of the lifecycle, used by the counterexample and
witness theorems below: an empty store, one draft complaint, its
confirmation (allocating ticket `TKT1`) and its cancellation. -/

/-- The empty repository. -/
def demoStore0 : Store := { complaints := [], tickets := [] }

/-- A concrete WhatsApp location payload. -/
def demoLoc : GeoLocation :=
  { latitude := (186/10 : ℚ), longitude := (738/10 : ℚ), address := "Main Signal Road" }

/-- Store after one draft complaint `CMP1` by reporter `919999900000`. -/
def demoStore1 : Store :=
  (createDraftComplaint demoStore0 "CMP1" "Water leaking near the main signal"
    "919999900000" (some "Water Supply") (some "high") (some "Water Leakage") none).1

/-- Store after `CMP1` is confirmed with a location, allocating `TKT1`. -/
def demoStore2 : Store :=
  ((confirmComplaint demoStore1 "CMP1" "TKT1" demoLoc).toOption.map Prod.fst).getD demoStore0

/-- Store after the already-confirmed `CMP1` is cancelled. -/
def demoStore3 : Store :=
  (cancelComplaint demoStore2 "CMP1").toOption.getD demoStore0

/-- Store after reporter `918888800000` joins `CMP1` as a follow-up user. -/
def demoJoined : Store := addUserToComplaintFollowUp demoStore2 "CMP1" "918888800000"

/-- The complaint document of `CMP1` after the follow-up join. -/
def demoJoinedComplaint : Complaint :=
  demoJoined.complaints.headD
    (createDraftComplaint demoStore0 "X" "" "" none none none none).2

/-! ## Theorems -/

/-- Helper: the if-chain of `decideDuplicateStatus` is the disjunction of
its six rules. -/
theorem decideDuplicateStatus_rules (finalScore : ℚ) (semantic : SemanticResult)
    (location : LocationResult) (image : ImageResult) :
    decideDuplicateStatus finalScore semantic location image = true ↔
      ((85/100 : ℚ) ≤ finalScore ∨
       ((75/100 : ℚ) ≤ finalScore ∧ location.withinProximity = true) ∨
       ((85/100 : ℚ) ≤ semantic.score ∧ (7/10 : ℚ) ≤ location.score) ∨
       ((9/10 : ℚ) ≤ location.score ∧ (6/10 : ℚ) ≤ semantic.score) ∨
       ((8/10 : ℚ) ≤ image.score ∧ (6/10 : ℚ) ≤ location.score) ∨
       (8/10 : ℚ) ≤ finalScore) := by
  unfold decideDuplicateStatus
  split_ifs with h1 h2 h3 h4 h5
  · simp only [true_iff]
    exact Or.inl h1
  · simp only [true_iff]
    exact Or.inr (Or.inl h2)
  · simp only [true_iff]
    exact Or.inr (Or.inr (Or.inl h3))
  · simp only [true_iff]
    exact Or.inr (Or.inr (Or.inr (Or.inl h4)))
  · simp only [true_iff]
    exact Or.inr (Or.inr (Or.inr (Or.inr (Or.inl h5))))
  · simp only [decide_eq_true_eq]
    constructor
    · intro h
      exact Or.inr (Or.inr (Or.inr (Or.inr (Or.inr h))))
    · rintro (h | h | h | h | h | h)
      · exact absurd h h1
      · exact absurd h h2
      · exact absurd h h3
      · exact absurd h h4
      · exact absurd h h5
      · exact h

/-- C6: for every aggregate score and sub-score breakdown, the duplicate
verdict is true exactly when at least one of the six rules holds
(aggregate ≥ 0.85; aggregate ≥ 0.75 with location proximity;
text ≥ 0.85 with location ≥ 0.70; location ≥ 0.90 with text ≥ 0.60;
image ≥ 0.80 with location ≥ 0.60; aggregate ≥ 0.80), and false
otherwise. -/
theorem decideDuplicateStatus_iff_rules (finalScore : ℚ) (semantic : SemanticResult)
    (location : LocationResult) (image : ImageResult) :
    decideDuplicateStatus finalScore semantic location image = true ↔
      ((85/100 : ℚ) ≤ finalScore ∨
       ((75/100 : ℚ) ≤ finalScore ∧ location.withinProximity = true) ∨
       ((85/100 : ℚ) ≤ semantic.score ∧ (7/10 : ℚ) ≤ location.score) ∨
       ((9/10 : ℚ) ≤ location.score ∧ (6/10 : ℚ) ≤ semantic.score) ∨
       ((8/10 : ℚ) ≤ image.score ∧ (6/10 : ℚ) ≤ location.score) ∨
       (8/10 : ℚ) ≤ finalScore) :=
  decideDuplicateStatus_rules finalScore semantic location image

/-- C4 counterexample: the recency analyzer does not degrade to score 0 — on
a failure inside its `try` block it returns score 0.5, contradicting the
claim that each of the five analyzers returns score 0 in that case. -/
theorem analyzeTemporalRelevance_failure_not_zero :
    (analyzeTemporalRelevance .failure).score = 5/10 ∧
    ¬ (analyzeTemporalRelevance .failure).score = 0 := by
  with_unfolding_all decide

/-- C4 (amended): the text, image and category analyzers return score 0 with
a failed/missing rationale on missing input or a classifier failure, and
the location analyzer returns score 0 on missing input or an internal
failure; the recency analyzer, however, returns score 0.5 on an internal
failure and score 0.1 (rationale "Old complaint") on a missing/invalid
creation date.  All analyzers are total functions, so the overall
similarity evaluation proceeds with the remaining signals. -/
theorem analyzers_degrade_except_recency :
    analyzeSemanticSimilarity none =
      { score := 0, reasoning := "Analysis failed", problemMatch := false,
        severityMatch := false, infrastructureMatch := false } ∧
    analyzeLocationProximity .missing =
      { score := 0, distance := none,
        reasoning := "One or both locations missing", withinProximity := false } ∧
    analyzeLocationProximity .failure =
      { score := 0, distance := none,
        reasoning := "Location analysis failed", withinProximity := false } ∧
    (∀ (url : Option String) (call : Option ImageResponse),
        analyzeImageSimilarity none url call =
          { score := 0, reasoning := "One or both images missing", visualMatch := false } ∧
        analyzeImageSimilarity url none call =
          { score := 0, reasoning := "One or both images missing", visualMatch := false }) ∧
    (∀ a b : String,
        analyzeImageSimilarity (some a) (some b) none =
          { score := 0, reasoning := "Image analysis failed", visualMatch := false }) ∧
    analyzeComplaintType none =
      { score := 0, sameType := false, newType := "unknown", existingType := "unknown" } ∧
    analyzeTemporalRelevance .failure =
      { score := (5/10 : ℚ), reasoning := "Date analysis failed", hoursDiff := none } ∧
    analyzeTemporalRelevance .invalidDate =
      { score := (1/10 : ℚ), reasoning := "Old complaint", hoursDiff := none } := by
  refine ⟨rfl, rfl, rfl, ?_, ?_, rfl, rfl, rfl⟩
  · intro url call
    cases url <;> simp [analyzeImageSimilarity]
  · intro a b
    simp [analyzeImageSimilarity]

/-- C9: the reputation update computes the weighted-average formula of the
source — `newScore = (currentScore·weight·(1−decay) + messageScore·3) /
(weight·(1−decay) + 3)` with `weight = min(totalMessages, 100)` and
`decay = max(0.1, 1/sqrt(totalMessages+1))` — rounds it to one decimal
and clamps it to `[1, 10]`, so the stored reporter score always lies in
`[1, 10]`. -/
theorem updateCitizenEthicalScore_formula_and_range
    (currentScore messageEthicalScore : ℝ) (totalMessages : ℕ) :
    updateCitizenEthicalScore currentScore messageEthicalScore totalMessages =
      max 1 (min 10 ((round
        (((currentScore * min (totalMessages : ℝ) 100 *
              (1 - max 0.1 (1 / Real.sqrt ((totalMessages : ℝ) + 1))) +
            messageEthicalScore * 3) /
          (min (totalMessages : ℝ) 100 *
              (1 - max 0.1 (1 / Real.sqrt ((totalMessages : ℝ) + 1))) + 3)) * 10) : ℝ) / 10)) ∧
    1 ≤ updateCitizenEthicalScore currentScore messageEthicalScore totalMessages ∧
    updateCitizenEthicalScore currentScore messageEthicalScore totalMessages ≤ 10 :=
  ⟨rfl, le_max_left _ _, max_le (by norm_num) ((min_le_left _ _).trans (by norm_num))⟩

/-- C10: the per-message ethical score is a natural number always in
`[1, 10]`; a failed classifier call returns the neutral default 7, and so
does a response containing no digit. -/
theorem calculateEthicalScore_range_and_default (call : Option String) :
    1 ≤ calculateEthicalScore call ∧ calculateEthicalScore call ≤ 10 ∧
    calculateEthicalScore none = 7 ∧
    (∀ s : String, s.data.filter Char.isDigit = [] →
      calculateEthicalScore (some s) = 7) := by
  refine ⟨?_, ?_, rfl, ?_⟩
  · cases call with
    | none => decide
    | some s =>
        cases h : (String.mk (s.data.filter Char.isDigit)).toNat? with
        | none =>
            simp only [calculateEthicalScore, h]
            decide
        | some n =>
            simp only [calculateEthicalScore, h]
            exact le_max_left _ _
  · cases call with
    | none => decide
    | some s =>
        cases h : (String.mk (s.data.filter Char.isDigit)).toNat? with
        | none =>
            simp only [calculateEthicalScore, h]
            decide
        | some n =>
            simp only [calculateEthicalScore, h]
            exact max_le (by decide) (min_le_left _ _)
  · intro s hs
    simp only [calculateEthicalScore, hs]
    decide

/-- C10 witness: the theorem applied at a digitless classifier response. -/
theorem calculateEthicalScore_range_and_default_witness :
    calculateEthicalScore (some "no digits here!") = 7 :=
  (calculateEthicalScore_range_and_default (some "no digits here!")).2.2.2
    "no digits here!" (by decide)

/-- Helper: an element of `updateFirst p f l` is an element of `l` or the
image under `f` of an element of `l`. -/
theorem updateFirst_mem {α : Type} {p : α → Bool} {f : α → α} {l : List α} {a : α}
    (h : a ∈ updateFirst p f l) : a ∈ l ∨ ∃ x ∈ l, a = f x := by
  induction l with
  | nil => cases h
  | cons x xs ih =>
      unfold updateFirst at h
      by_cases hp : p x
      · rw [if_pos hp] at h
        rcases List.mem_cons.mp h with h | h
        · exact Or.inr ⟨x, List.mem_cons_self x xs, h⟩
        · exact Or.inl (List.mem_cons_of_mem x h)
      · rw [if_neg hp] at h
        rcases List.mem_cons.mp h with h | h
        · exact Or.inl (h ▸ List.mem_cons_self x xs)
        · rcases ih h with h | ⟨y, hy, e⟩
          · exact Or.inl (List.mem_cons_of_mem x h)
          · exact Or.inr ⟨y, List.mem_cons_of_mem x hy, e⟩

/-- C1: the source code rejects neither a confirm nor a cancel on a
complaint that is already outside `draft` (code bug relative to the
spec's rejection rule): on the concrete store where `CMP1` is already
`active` with ticket `TKT1`, a second confirm succeeds, overwrites the
complaint's ticket id with `TKT2` and creates a second ticket record; and
on the store where `CMP1` is already `cancelled`, a second cancel also
succeeds. -/
theorem confirm_cancel_accept_non_draft :
    (demoStore2.complaints.map fun c => (c.status, c.ticketId)) =
      [("active", some "TKT1")] ∧
    (confirmComplaint demoStore2 "CMP1" "TKT2" demoLoc).toOption.isSome = true ∧
    ((confirmComplaint demoStore2 "CMP1" "TKT2" demoLoc).toOption.map fun p =>
        (p.1.complaints.map fun c => (c.status, c.ticketId),
         p.1.tickets.map fun t => t.ticketId)) =
      some ([("active", some "TKT2")], ["TKT1", "TKT2"]) ∧
    (demoStore3.complaints.map fun c => c.status) = ["cancelled"] ∧
    (cancelComplaint demoStore3 "CMP1").toOption.isSome = true := by
  with_unfolding_all decide

/-- C3 counterexample: the draft complaint document is created without any
`followUpUsers` entry, so right after creation — and even after a
duplicate-triggered join adds the second reporter — the complaint's
`followUpUsers` does not contain its `createdBy` reporter. -/
theorem complaint_followUpUsers_lacks_creator :
    ((createDraftComplaint demoStore0 "CMP1" "Water leaking near the main signal"
        "919999900000" (some "Water Supply") (some "high") (some "Water Leakage")
        none).2).createdBy = "919999900000" ∧
    ((createDraftComplaint demoStore0 "CMP1" "Water leaking near the main signal"
        "919999900000" (some "Water Supply") (some "high") (some "Water Leakage")
        none).2).followUpUsers = [] ∧
    demoJoinedComplaint.createdBy = "919999900000" ∧
    demoJoinedComplaint.followUpUsers = ["918888800000"] ∧
    ¬ "919999900000" ∈ demoJoinedComplaint.followUpUsers := by
  with_unfolding_all decide

/-- C3 (amended): the `followUpUsers` that is guaranteed to contain the
`createdBy` reporter is the ticket record's, from its creation onward;
the complaint document itself starts without the field.  A
duplicate-triggered join uses `arrayUnion`: it adds the joining reporter
idempotently and never removes an existing member or changes
`createdBy`, on the complaint as well as on the matched ticket. -/
theorem followUp_ticket_creator_and_join_appends :
    (∀ (tid cid : String) (c : Complaint) (loc : GeoLocation),
        c.createdBy ∈ (createTicketRecord tid cid c loc).followUpUsers) ∧
    (∀ (l : List String) (u : String),
        u ∈ arrayUnion l u ∧ arrayUnion (arrayUnion l u) u = arrayUnion l u ∧
        ∀ x ∈ l, x ∈ arrayUnion l u) ∧
    (∀ (s : Store) (cid u : String),
        ∀ c' ∈ (addUserToComplaintFollowUp s cid u).complaints,
          ∃ c ∈ s.complaints, c'.createdBy = c.createdBy ∧
            ∀ x ∈ c.followUpUsers, x ∈ c'.followUpUsers) ∧
    (∀ (s : Store) (cid u : String),
        ∀ t' ∈ (addUserToComplaintFollowUp s cid u).tickets,
          ∃ t ∈ s.tickets, t'.createdBy = t.createdBy ∧
            ∀ x ∈ t.followUpUsers, x ∈ t'.followUpUsers) ∧
    (∀ (s : Store) (cid u : String),
        ∀ c' ∈ (addUserToComplaintFollowUp s cid u).complaints,
          c'.id = cid → u ∈ c'.followUpUsers) := by
  have hunion : ∀ (l : List String) (u : String),
      u ∈ arrayUnion l u ∧ arrayUnion (arrayUnion l u) u = arrayUnion l u ∧
      ∀ x ∈ l, x ∈ arrayUnion l u := by
    intro l u
    unfold arrayUnion
    by_cases hu : u ∈ l
    · simp [hu]
    · refine ⟨?_, ?_, ?_⟩
      · simp [hu]
      · simp [hu]
      · intro x hx
        simp [hu, hx]
  refine ⟨?_, hunion, ?_, ?_, ?_⟩
  · intro tid cid c loc
    simp [createTicketRecord]
  · intro s cid u c' hc'
    unfold addUserToComplaintFollowUp at hc'
    by_cases hf : (s.complaints.find? (fun c => c.id == cid)).isSome
    · rw [if_pos hf] at hc'
      simp only [List.mem_map] at hc'
      obtain ⟨c, hc, hfc⟩ := hc'
      refine ⟨c, hc, ?_⟩
      by_cases hid : c.id = cid
      · simp only [hid, beq_self_eq_true, if_true] at hfc
        subst hfc
        exact ⟨rfl, fun x hx => (hunion c.followUpUsers u).2.2 x hx⟩
      · rw [if_neg (by simp [hid])] at hfc
        subst hfc
        exact ⟨rfl, fun x hx => hx⟩
    · rw [if_neg hf] at hc'
      exact ⟨c', hc', rfl, fun x hx => hx⟩
  · intro s cid u t' ht'
    unfold addUserToComplaintFollowUp at ht'
    by_cases hf : (s.complaints.find? (fun c => c.id == cid)).isSome
    · rw [if_pos hf] at ht'
      rcases updateFirst_mem ht' with h | ⟨t, ht, e⟩
      · exact ⟨t', h, rfl, fun x hx => hx⟩
      · subst e
        exact ⟨t, ht, rfl, fun x hx => (hunion t.followUpUsers u).2.2 x hx⟩
    · rw [if_neg hf] at ht'
      exact ⟨t', ht', rfl, fun x hx => hx⟩
  · intro s cid u c' hc' hid
    unfold addUserToComplaintFollowUp at hc'
    by_cases hf : (s.complaints.find? (fun c => c.id == cid)).isSome
    · rw [if_pos hf] at hc'
      simp only [List.mem_map] at hc'
      obtain ⟨c, hc, hfc⟩ := hc'
      by_cases hcid : c.id = cid
      · simp only [hcid, beq_self_eq_true, if_true] at hfc
        subst hfc
        exact (hunion c.followUpUsers u).1
      · rw [if_neg (by simp [hcid])] at hfc
        subst hfc
        exact absurd hid hcid
    · rw [if_neg hf] at hc'
      rw [Option.not_isSome_iff_eq_none, List.find?_eq_none] at hf
      exact absurd (by simp [hid]) (hf c' hc')

/-- C3 witness: the amended theorem exercised on the concrete joined store:
the original reporter owns the ticket's follow-up list, `arrayUnion`
keeps existing members, and the joining reporter ends up in the
complaint's list. -/
theorem followUp_ticket_creator_and_join_appends_witness :
    ("918888800000" ∈ arrayUnion ["919999900000"] "918888800000") ∧
    (∃ c ∈ demoStore2.complaints, demoJoinedComplaint.createdBy = c.createdBy ∧
        ∀ x ∈ c.followUpUsers, x ∈ demoJoinedComplaint.followUpUsers) ∧
    "918888800000" ∈ demoJoinedComplaint.followUpUsers := by
  have h := followUp_ticket_creator_and_join_appends
  refine ⟨(h.2.1 ["919999900000"] "918888800000").1, ?_, ?_⟩
  · exact h.2.2.1 demoStore2 "CMP1" "918888800000" demoJoinedComplaint
      (by with_unfolding_all decide)
  · exact h.2.2.2.2 demoStore2 "CMP1" "918888800000" demoJoinedComplaint
      (by with_unfolding_all decide) (by with_unfolding_all decide)

/-- C5 counterexample: once the ticket record exists, the complaint's own
`workflow.completionPercentage` is still 60, not 70 — the value 70 is
written to the ticket record's workflow, never to the complaint's. -/
theorem ticketed_complaint_stays_at_sixty :
    (demoStore2.complaints.map fun c => c.workflow.completionPercentage) = [60] ∧
    (demoStore2.tickets.map fun t => (t.complaintId, t.workflow.completionPercentage)) =
      [("CMP1", 70)] ∧
    ¬ (demoStore2.complaints.map fun c => c.workflow.completionPercentage) = [70] := by
  with_unfolding_all decide

/-- C5 (amended): a complaint's `workflow.completionPercentage` is 30 at
draft creation and 60 on location confirmation, and it stays at 60 when
the ticket record is created — the 70 is the ticket record's own
workflow percentage; cancellation sets the complaint's percentage to 0.
No operation changes any other complaint, so the only decrease a
complaint ever undergoes is the cancellation drop to 0. -/
theorem completionPercentage_stage_values :
    (∀ (s : Store) (cid desc phone : String) (dept prio cat img : Option String),
        ((createDraftComplaint s cid desc phone dept prio cat img).2).workflow.completionPercentage = 30 ∧
        ∀ c ∈ s.complaints,
          c ∈ (createDraftComplaint s cid desc phone dept prio cat img).1.complaints) ∧
    (∀ (s : Store) (cid tid : String) (loc : GeoLocation) (s' : Store) (r : String),
        confirmComplaint s cid tid loc = .ok (s', r) →
        (∀ c' ∈ s'.complaints,
            (c'.id = cid → c'.workflow.completionPercentage = 60) ∧
            (¬ c'.id = cid → c' ∈ s.complaints)) ∧
        ∃ t ∈ s'.tickets, t.ticketId = tid ∧ t.complaintId = cid ∧
          t.workflow.completionPercentage = 70) ∧
    (∀ (s : Store) (cid : String) (s' : Store),
        cancelComplaint s cid = .ok s' →
        ∀ c' ∈ s'.complaints,
          (c'.id = cid → c'.workflow.completionPercentage = 0) ∧
          (¬ c'.id = cid → c' ∈ s.complaints)) := by
  refine ⟨?_, ?_, ?_⟩
  · intro s cid desc phone dept prio cat img
    exact ⟨rfl, fun c hc => List.mem_append_left _ hc⟩
  · intro s cid tid loc s' r h
    unfold confirmComplaint at h
    cases hf : s.complaints.find? (fun c => c.id == cid) with
    | none => rw [hf] at h; cases h
    | some cd =>
        rw [hf] at h
        simp only [Except.ok.injEq, Prod.mk.injEq] at h
        obtain ⟨hs', hr⟩ := h
        subst hs'
        constructor
        · intro c' hc'
          simp only [List.mem_map] at hc'
          obtain ⟨c, hc, hfc⟩ := hc'
          by_cases hid : c.id = cid
          · simp only [hid, beq_self_eq_true, if_true] at hfc
            subst hfc
            exact ⟨fun _ => rfl, fun hne => absurd rfl hne⟩
          · rw [if_neg (by simp [hid])] at hfc
            subst hfc
            exact ⟨fun he => absurd he hid, fun _ => hc⟩
        · refine ⟨createTicketRecord tid cid
            { cd with
                status := "active"
                ticketId := some tid
                location := some loc
                requiresLocationSharing := false
                workflow :=
                  { step := "confirmed"
                    nextAction := "assign_department"
                    completionPercentage := 60 } } loc, ?_, rfl, rfl, rfl⟩
          simp
  · intro s cid s' h
    unfold cancelComplaint at h
    by_cases hf : (s.complaints.find? (fun c => c.id == cid)).isSome
    · rw [if_pos hf] at h
      simp only [Except.ok.injEq] at h
      subst h
      intro c' hc'
      simp only [List.mem_map] at hc'
      obtain ⟨c, hc, hfc⟩ := hc'
      by_cases hid : c.id = cid
      · simp only [hid, beq_self_eq_true, if_true] at hfc
        subst hfc
        exact ⟨fun _ => rfl, fun hne => absurd rfl hne⟩
      · rw [if_neg (by simp [hid])] at hfc
        subst hfc
        exact ⟨fun he => absurd he hid, fun _ => hc⟩
    · rw [if_neg hf] at h
      cases h

/-- C5 witness: the amended theorem at the concrete confirmation of `CMP1`:
the confirmed complaint sits at 60 and the created ticket record at 70. -/
theorem completionPercentage_stage_values_witness :
    ∃ t ∈ demoStore2.tickets, t.ticketId = "TKT1" ∧ t.complaintId = "CMP1" ∧
      t.workflow.completionPercentage = 70 := by
  have h := completionPercentage_stage_values
  exact (h.2.1 demoStore1 "CMP1" "TKT1" demoLoc demoStore2 "TKT1"
    (by with_unfolding_all rfl)).2

/-- C7: `decideDuplicateStatus` is monotonic — raising sub-scores while the
aggregate is recomputed with the fixed weights and `withinProximity` is
unchanged never turns a duplicate verdict into a non-duplicate one; in
particular this holds when a single sub-score is raised and the four
others are fixed. -/
theorem decideDuplicateStatus_monotone
    (sem sem' : SemanticResult) (loc loc' : LocationResult) (img img' : ImageResult)
    (tmp tmp' : TemporalResult) (ty ty' : TypeResult)
    (hs : sem.score ≤ sem'.score) (hl : loc.score ≤ loc'.score)
    (hi : img.score ≤ img'.score) (ht : tmp.score ≤ tmp'.score)
    (hy : ty.score ≤ ty'.score)
    (hprox : loc.withinProximity = loc'.withinProximity)
    (hdup : decideDuplicateStatus (aggregateScore sem loc img tmp ty) sem loc img = true) :
    decideDuplicateStatus (aggregateScore sem' loc' img' tmp' ty') sem' loc' img' = true := by
  have hagg : aggregateScore sem loc img tmp ty ≤ aggregateScore sem' loc' img' tmp' ty' := by
    simp only [aggregateScore, weights]
    linarith
  rw [decideDuplicateStatus_rules] at hdup ⊢
  rcases hdup with h | h | h | h | h | h
  · exact Or.inl (le_trans h hagg)
  · exact Or.inr (Or.inl ⟨le_trans h.1 hagg, hprox ▸ h.2⟩)
  · exact Or.inr (Or.inr (Or.inl ⟨le_trans h.1 hs, le_trans h.2 hl⟩))
  · exact Or.inr (Or.inr (Or.inr (Or.inl ⟨le_trans h.1 hl, le_trans h.2 hs⟩)))
  · exact Or.inr (Or.inr (Or.inr (Or.inr (Or.inl ⟨le_trans h.1 hi, le_trans h.2 hl⟩))))
  · exact Or.inr (Or.inr (Or.inr (Or.inr (Or.inr (le_trans h hagg)))))

/-- C7 witness: a concrete duplicate verdict survives raising the text
sub-score from 0.85 to 0.95 with all other sub-scores fixed. -/
theorem decideDuplicateStatus_monotone_witness :
    decideDuplicateStatus
      (aggregateScore ⟨95/100, "r", false, false, false⟩
        ⟨7/10, some (15/100 : ℚ), "r", true⟩ ⟨0, "r", false⟩
        ⟨1, "r", some 2⟩ ⟨1, true, "t", "t"⟩)
      ⟨95/100, "r", false, false, false⟩ ⟨7/10, some (15/100 : ℚ), "r", true⟩
      ⟨0, "r", false⟩ = true := by
  have h := decideDuplicateStatus_monotone
    ⟨85/100, "r", false, false, false⟩ ⟨95/100, "r", false, false, false⟩
    ⟨7/10, some (15/100 : ℚ), "r", true⟩ ⟨7/10, some (15/100 : ℚ), "r", true⟩
    ⟨0, "r", false⟩ ⟨0, "r", false⟩
    ⟨1, "r", some 2⟩ ⟨1, "r", some 2⟩
    ⟨1, true, "t", "t"⟩ ⟨1, true, "t", "t"⟩
    (by norm_num) (le_refl _) (le_refl _) (le_refl _) (le_refl _) rfl
    (by with_unfolding_all decide)
  exact h

/-- C8: the similarity evaluation's aggregate score equals
`0.35·text + 0.30·location + 0.20·image + 0.10·recency + 0.05·category`;
the five weights sum to 1, and whenever every sub-score lies in `[0, 1]`
the aggregate score lies in `[0, 1]`. -/
theorem checkComplaintSimilarity_weighted_score
    (sem : SemanticResult) (loc : LocationResult) (img : ImageResult)
    (tmp : TemporalResult) (ty : TypeResult) :
    (checkComplaintSimilarity sem loc img tmp ty).score =
      35/100 * sem.score + 30/100 * loc.score + 20/100 * img.score +
        10/100 * tmp.score + 5/100 * ty.score ∧
    weights.semantic + weights.location + weights.image + weights.temporal +
      weights.type' = 1 ∧
    (0 ≤ sem.score → sem.score ≤ 1 → 0 ≤ loc.score → loc.score ≤ 1 →
     0 ≤ img.score → img.score ≤ 1 → 0 ≤ tmp.score → tmp.score ≤ 1 →
     0 ≤ ty.score → ty.score ≤ 1 →
     0 ≤ (checkComplaintSimilarity sem loc img tmp ty).score ∧
       (checkComplaintSimilarity sem loc img tmp ty).score ≤ 1) := by
  have e : (checkComplaintSimilarity sem loc img tmp ty).score =
      sem.score * (35/100) + loc.score * (30/100) + img.score * (20/100) +
        tmp.score * (10/100) + ty.score * (5/100) := by
    simp [checkComplaintSimilarity, aggregateScore, weights]
  refine ⟨by rw [e]; ring, by norm_num [weights], ?_⟩
  intro h1 h2 h3 h4 h5 h6 h7 h8 h9 h10
  rw [e]
  constructor
  · have := mul_le_mul_of_nonneg_right h1 (by norm_num : (0:ℚ) ≤ 35/100)
    linarith
  · linarith

/-- C8 witness: the theorem at a concrete breakdown with every sub-score in
`[0, 1]`. -/
theorem checkComplaintSimilarity_weighted_score_witness :
    0 ≤ (checkComplaintSimilarity ⟨8/10, "r", true, false, false⟩
        ⟨6/10, some (4/10 : ℚ), "r", false⟩ ⟨7/10, "r", true⟩
        ⟨1, "r", some 2⟩ ⟨1, true, "t", "t"⟩).score ∧
    (checkComplaintSimilarity ⟨8/10, "r", true, false, false⟩
        ⟨6/10, some (4/10 : ℚ), "r", false⟩ ⟨7/10, "r", true⟩
        ⟨1, "r", some 2⟩ ⟨1, true, "t", "t"⟩).score ≤ 1 :=
  (checkComplaintSimilarity_weighted_score ⟨8/10, "r", true, false, false⟩
      ⟨6/10, some (4/10 : ℚ), "r", false⟩ ⟨7/10, "r", true⟩
      ⟨1, "r", some 2⟩ ⟨1, true, "t", "t"⟩).2.2
    (by norm_num) (by norm_num) (by norm_num) (by norm_num) (by norm_num)
    (by norm_num) (by norm_num) (by norm_num) (by norm_num) (by norm_num)

/-- Helper: `maxFrom` peels off the head of the pool. -/
theorem maxFrom_cons (m : ℚ) (c : SimilarityResult) (rest : List SimilarityResult) :
    maxFrom m (c :: rest) = maxFrom (max m c.score) rest := rfl

/-- Helper: the running maximum never drops below its starting value. -/
theorem le_maxFrom (pool : List SimilarityResult) : ∀ m : ℚ, m ≤ maxFrom m pool := by
  induction pool with
  | nil => intro m; exact le_refl m
  | cons c rest ih =>
      intro m
      rw [maxFrom_cons]
      exact le_trans (le_max_left m c.score) (ih (max m c.score))

/-- Helper: the strict-improvement fold of the duplicate scan, started from
any accumulator, lands on the first candidate attaining the running
maximum whenever some candidate exceeds the starting value, and leaves
the accumulator untouched otherwise. -/
theorem scanFold_spec (pool : List SimilarityResult) :
    ∀ (b : Option SimilarityResult) (m : ℚ),
      pool.foldl scanStep (b, m) =
        if m < maxFrom m pool
        then (pool.find? (fun c => c.score == maxFrom m pool), maxFrom m pool)
        else (b, m) := by
  induction pool with
  | nil =>
      intro b m
      simp [maxFrom]
  | cons c rest ih =>
      intro b m
      rw [List.foldl_cons, maxFrom_cons]
      by_cases hc : m < c.score
      · have hstep : scanStep (b, m) c = (some c, c.score) := by
          simp [scanStep, hc]
        rw [hstep, ih, max_eq_right hc.le]
        have hcM : c.score ≤ maxFrom c.score rest := le_maxFrom rest c.score
        have hmM : m < maxFrom c.score rest := lt_of_lt_of_le hc hcM
        rw [if_pos hmM]
        by_cases hM : c.score < maxFrom c.score rest
        · rw [if_pos hM, List.find?_cons_of_neg]
          simp [hM.ne]
        · have heq : maxFrom c.score rest = c.score := le_antisymm (not_lt.mp hM) hcM
          rw [if_neg hM, List.find?_cons_of_pos, heq]
          simp [heq]
      · have hstep : scanStep (b, m) c = (b, m) := by
          simp [scanStep, hc]
        rw [hstep, ih, max_eq_left (not_lt.mp hc)]
        by_cases hm : m < maxFrom m rest
        · rw [if_pos hm, if_pos hm, List.find?_cons_of_neg]
          have : c.score ≠ maxFrom m rest :=
            ne_of_lt (lt_of_le_of_lt (not_lt.mp hc) hm)
          simp [this]
        · rw [if_neg hm, if_neg hm]

/-- Helper: the scan of `checkDuplicateComplaint` computes exactly the first
candidate attaining the pool's positive maximum score, together with that
maximum (0 for an empty or all-zero pool). -/
theorem scanCandidates_eq (pool : List SimilarityResult) :
    scanCandidates pool = (bestCandidate pool, maxScore pool) := by
  unfold scanCandidates bestCandidate maxScore
  rw [scanFold_spec]
  by_cases h : (0 : ℚ) < maxFrom 0 pool
  · rw [if_pos h, if_pos h]
  · have h0 : maxFrom 0 pool = 0 := le_antisymm (not_lt.mp h) (le_maxFrom pool 0)
    rw [if_neg h, if_neg h, h0]

/-- C2 counterexample: a pool where the second scanned candidate receives a
duplicate verdict (location 0.95 at a 40 m distance with text 0.6 — rule
4 of `decideDuplicateStatus` — at aggregate 0.505) while the first scores
higher (0.69) without being a duplicate — the check returns a
not-duplicate result carrying 0.69, not the duplicate-verdict candidate.
Neither candidate's location score involves the address boost, so every
comparison traces identically in the source's doubles. -/
theorem checkDuplicate_misses_lower_scoring_duplicate :
    (checkComplaintSimilarity
        (analyzeSemanticSimilarity (some ⟨some (6/10), none, none, none, none⟩))
        (analyzeLocationProximity (.ok (4/100) 0))
        (analyzeImageSimilarity none none none)
        (analyzeTemporalRelevance (.ok 800))
        (analyzeComplaintType none)).isDuplicate = true ∧
    checkDuplicateComplaint
        [checkComplaintSimilarity
            (analyzeSemanticSimilarity (some ⟨some (8/10), none, none, none, none⟩))
            (analyzeLocationProximity (.ok (4/10) 0))
            (analyzeImageSimilarity (some "imgA") (some "imgB")
              (some ⟨some (7/10), none, none, none, none⟩))
            (analyzeTemporalRelevance (.ok 2))
            (analyzeComplaintType (some ⟨some 1, some true, none, none⟩)),
         checkComplaintSimilarity
            (analyzeSemanticSimilarity (some ⟨some (6/10), none, none, none, none⟩))
            (analyzeLocationProximity (.ok (4/100) 0))
            (analyzeImageSimilarity none none none)
            (analyzeTemporalRelevance (.ok 800))
            (analyzeComplaintType none)] =
      .noDuplicate (69/100) := by
  with_unfolding_all decide

/-- C2 (amended): the check tracks the single candidate with the strictly
highest similarity score (the earliest on ties, and only if that maximum
is positive); it returns a duplicate result exactly when that best
candidate's own verdict is duplicate, and otherwise a not-duplicate
result carrying the highest score observed — a duplicate verdict on any
lower-scoring candidate does not produce a duplicate result. -/
theorem checkDuplicate_best_candidate_decides (pool : List SimilarityResult) :
    checkDuplicateComplaint pool =
      match bestCandidate pool with
      | some b => if b.isDuplicate then .duplicate b else .noDuplicate (maxScore pool)
      | none => .noDuplicate (maxScore pool) := by
  unfold checkDuplicateComplaint
  rw [scanCandidates_eq]
  cases hb : bestCandidate pool with
  | some b => rfl
  | none => rfl

end Demo
